import Mathlib

/-!
Verification of the asynchronous notification dispatch subsystem of the
school-management backend: recipient resolution, device-token registry,
degraded-mode enqueue, the delivery worker, and the job-history listing.
Definitions are shallow embeddings of the TypeScript source
(notification.service.ts, notification.queue.ts, notification.worker).
-/

namespace SchoolMgmt

/-! ## Directory model (the external user/role/class store read by the resolver) -/

/-- A user row as read by the resolver: `prisma.user` with its role relation's
name flattened, plus the `isActive` soft-delete flag present on the model. -/
structure User where
  id : String
  roleName : String
  isActive : Bool
  deriving DecidableEq, Repr

/-- A `teacherClass` assignment row: `prisma.teacherClass` with the teacher's
`userId` flattened from the nested select. -/
structure TeacherClass where
  classId : String
  teacherUserId : String
  deriving DecidableEq, Repr

/-- A student row as read by the resolver: `prisma.student` with the parent's
`userId` flattened; the parent relation may be absent (`p.parent` nullable). -/
structure Student where
  classId : String
  parentUserId : Option String
  deriving DecidableEq, Repr

/-- The directory the resolver queries. -/
structure Directory where
  users : List User
  teacherClasses : List TeacherClass
  students : List Student
  deriving DecidableEq, Repr

/-- The `recipients` object of `SendNotificationInput`: each category optional. -/
structure RecipientFilter where
  userIds : Option (List String)
  roles : Option (List String)
  classIds : Option (List String)
  deriving DecidableEq, Repr

/-- JS truthiness test used by the resolver: `xs && xs.length > 0`. -/
def optNonEmpty : Option (List String) → Bool
  | some (_ :: _) => true
  | _ => false

/-! ## JS `Set<string>` model

The resolver accumulates ids in a `Set<string>` and returns `Array.from(set)`.
A JS Set preserves insertion order and ignores re-insertion, so it is a
duplicate-free list with append-if-new insertion. -/

/-- One `set.add(x)`: append `x` unless already present. -/
def setAdd (s : List String) (x : String) : List String :=
  if x ∈ s then s else s ++ [x]

/-- A `forEach`-style sequence of `set.add` calls. -/
def setAddAll (s : List String) (xs : List String) : List String :=
  xs.foldl setAdd s

/-! ## Recipient Resolver (`resolveRecipientUserIds` in notification.service.ts) -/

/-- Lookup for the explicit-ids branch:
`prisma.user.findMany({ where: { id: { in: ids } }, select: { id } })`. -/
def lookupUsersByIds (dir : Directory) (ids : List String) : List String :=
  (dir.users.filter (fun u => ids.contains u.id)).map (fun u => u.id)

/-- Lookup for the roles branch:
`prisma.user.findMany({ where: { role: { name: { in: roles } } }, select: { id } })`.
Note the query has no `isActive` condition. -/
def lookupUsersByRoles (dir : Directory) (roles : List String) : List String :=
  (dir.users.filter (fun u => roles.contains u.roleName)).map (fun u => u.id)

/-- Lookup for the class-staff branch:
`prisma.teacherClass.findMany({ where: { classId: { in: classIds } } })`,
selecting each assignment's `teacher.userId`. -/
def lookupTeachersByClasses (dir : Directory) (classIds : List String) : List String :=
  (dir.teacherClasses.filter (fun tc => classIds.contains tc.classId)).map
    (fun tc => tc.teacherUserId)

/-- Lookup for the class-guardians branch:
`prisma.student.findMany({ where: { classId: { in: classIds } } })`, selecting
`parent.userId` and skipping students with no parent (`if (p.parent)`). -/
def lookupParentsByClasses (dir : Directory) (classIds : List String) : List String :=
  (dir.students.filter (fun st => classIds.contains st.classId)).filterMap
    (fun st => st.parentUserId)

/-- Shallow embedding of `resolveRecipientUserIds`: three conditional lookup
passes accumulating into one `Set<string>`, returned as `Array.from(set)`. -/
def resolveRecipientUserIds (dir : Directory) (recipients : RecipientFilter) : List String :=
  let s0 : List String := []
  let s1 := if optNonEmpty recipients.userIds then
      setAddAll s0 (lookupUsersByIds dir (recipients.userIds.getD []))
    else s0
  let s2 := if optNonEmpty recipients.roles then
      setAddAll s1 (lookupUsersByRoles dir (recipients.roles.getD []))
    else s1
  let s3 := if optNonEmpty recipients.classIds then
      setAddAll (setAddAll s2 (lookupTeachersByClasses dir (recipients.classIds.getD [])))
        (lookupParentsByClasses dir (recipients.classIds.getD []))
    else s2
  s3

/-! ## Service errors (utils/errors.ts, the variants used by this subsystem) -/

/-- Synchronous caller-visible errors thrown by the notification service. -/
inductive ServiceError
  | conflict (msg : String)
  | notFound (msg : String)
  deriving DecidableEq, Repr

/-! ## Device Token Store (`registerDevice`, `getDeviceTokensForUsers`) -/

/-- A `deviceToken` row. `lastUsedAt` is a timestamp modelled as a `Nat` clock
value; on create the column takes the creation time as its default. -/
structure DeviceTokenRow where
  userId : String
  token : String
  platform : String
  isActive : Bool
  lastUsedAt : Nat
  deriving DecidableEq, Repr

/-- Request body of `POST /notification/device`. -/
structure RegisterDeviceInput where
  userId : String
  deviceToken : String
  platform : String
  deriving DecidableEq, Repr

/-- Predicate for the `userId_token` unique key of the `deviceToken` table. -/
def matchesKey (r : DeviceTokenRow) (userId token : String) : Bool :=
  r.userId == userId && r.token == token

/-- The `update` branch of the upsert: refresh `platform`, set `isActive`,
refresh `lastUsedAt`. -/
def updateRow (input : RegisterDeviceInput) (now : Nat) (r : DeviceTokenRow) : DeviceTokenRow :=
  if matchesKey r input.userId input.deviceToken then
    { r with platform := input.platform, isActive := true, lastUsedAt := now }
  else r

/-- The `create` branch of the upsert: a new active row. -/
def newRow (input : RegisterDeviceInput) (now : Nat) : DeviceTokenRow :=
  { userId := input.userId, token := input.deviceToken, platform := input.platform,
    isActive := true, lastUsedAt := now }

/-- Shallow embedding of `prisma.deviceToken.upsert` keyed on `(userId, token)`:
update the matching row when the pair exists, insert otherwise. -/
def upsertDeviceToken (store : List DeviceTokenRow) (input : RegisterDeviceInput)
    (now : Nat) : List DeviceTokenRow :=
  if store.any (fun r => matchesKey r input.userId input.deviceToken) then
    store.map (updateRow input now)
  else
    store ++ [newRow input now]

/-- Shallow embedding of `registerDevice`: reject with a `ConflictError` when the
body's `userId` differs from the authenticated requester, otherwise upsert.
Returns the store after the call together with the outcome. -/
def registerDevice (store : List DeviceTokenRow) (input : RegisterDeviceInput)
    (requesterUserId : String) (now : Nat) :
    List DeviceTokenRow × Except ServiceError DeviceTokenRow :=
  if input.userId ≠ requesterUserId then
    (store, .error (.conflict "User ID does not match authenticated user"))
  else
    let store' := upsertDeviceToken store input now
    (store', .ok (newRow input now))

/-- Shallow embedding of `getDeviceTokensForUsers`:
`prisma.deviceToken.findMany({ where: { userId: { in: userIds }, isActive: true } })`. -/
def getDeviceTokensForUsers (store : List DeviceTokenRow) (userIds : List String) :
    List DeviceTokenRow :=
  store.filter (fun r => userIds.contains r.userId && r.isActive)

/-! ## Enqueue path (`enqueueNotification` in notification.service.ts) -/

/-- Request body of `POST /notification/send` after schema validation. -/
structure SendNotificationInput where
  title : String
  message : String
  recipients : RecipientFilter
  data : Option (List (String × String))
  deriving DecidableEq, Repr

/-- Payload stored in a queue job (`NotificationJobData`). -/
structure NotificationJobData where
  title : String
  message : String
  data : Option (List (String × String))
  recipientUserIds : List String
  initiatedBy : String
  deriving DecidableEq, Repr

/-- The fields of a JS `Error` value that `enqueueNotification` inspects. -/
structure JsError where
  message : String
  code : String
  name : String
  deriving DecidableEq, Repr

/-- Model of JS `String(error)` for an `Error` value: `Error.prototype.toString`
yields the name, then ": " and the message when the message is non-empty. -/
def jsErrorToString (e : JsError) : String :=
  if e.message = "" then e.name else e.name ++ ": " ++ e.message

/-- Model of JS `string.toLowerCase()`: lower-case each character. -/
def strToLower (s : String) : String := ⟨s.data.map Char.toLower⟩

/-- Boolean test for a contiguous character-list occurrence. -/
def charListHasSub (pat : List Char) : List Char → Bool
  | [] => pat.isEmpty
  | c :: rest => pat.isPrefixOf (c :: rest) || charListHasSub pat rest

/-- Model of JS `string.includes(pat)`. -/
def strContains (s pat : String) : Bool :=
  charListHasSub pat.toList s.toList

/-- Shallow embedding of the `isRedisError` classification in
`enqueueNotification`: substring and field sniffing over the caught error. -/
def isRedisError (e : JsError) : Bool :=
  let errorMessage := strToLower (if e.message = "" then jsErrorToString e else e.message)
  let errorCode := e.code
  let errorName := e.name
  let errorString := strToLower (jsErrorToString e)
  strContains errorMessage "econnrefused" ||
  strContains errorMessage "redis" ||
  strContains errorMessage "connection" ||
  strContains errorMessage "connect econnrefused" ||
  strContains errorMessage "connect" ||
  errorCode == "ECONNREFUSED" ||
  errorCode == "ENOTFOUND" ||
  errorCode == "ETIMEDOUT" ||
  errorCode == "ECONNRESET" ||
  errorName == "Error" ||
  strContains errorString "redis" ||
  strContains errorString "connection"

/-- Response shape of `enqueueNotification`. -/
structure EnqueueResult where
  queued : Bool
  recipientCount : Nat
  warning : Option String
  deriving DecidableEq, Repr

/-- Warning text of the Redis-connectivity branch. -/
def redisWarning : String :=
  "Notification queue unavailable. Please ensure Redis is running on localhost:6379. Notification was not sent."

/-- Warning text of the fallback branch for any other error. -/
def fallbackWarning (e : JsError) : String :=
  "Notification queue error: " ++ (if e.message = "" then jsErrorToString e else e.message) ++
    ". Please check Redis connection."

/-- Shallow embedding of `enqueueNotification`. Recipient resolution runs
first; an empty resolved set raises `NotFoundError`. The behaviour of
`notificationQueue.add` is an explicit parameter mapping the job payload to
its outcome: `none` means the add succeeded, `some e` means it raised `e`.
Every raised error is caught and downgraded to a `queued: false` response
with a warning. -/
def enqueueNotification (dir : Directory) (input : SendNotificationInput)
    (initiatedBy : String) (addOutcome : NotificationJobData → Option JsError) :
    Except ServiceError EnqueueResult :=
  let recipientUserIds := resolveRecipientUserIds dir input.recipients
  if recipientUserIds.length = 0 then
    .error (.notFound "No recipients found for the provided criteria")
  else
    let jobData : NotificationJobData :=
      { title := input.title, message := input.message, data := input.data,
        recipientUserIds := recipientUserIds, initiatedBy := initiatedBy }
    match addOutcome jobData with
    | none =>
        .ok { queued := true, recipientCount := recipientUserIds.length, warning := none }
    | some e =>
        if isRedisError e then
          .ok { queued := false, recipientCount := recipientUserIds.length,
                warning := some redisWarning }
        else
          .ok { queued := false, recipientCount := recipientUserIds.length,
                warning := some (fallbackWarning e) }

/-! ## Delivery worker (the `notificationQueue.process(5, ...)` handler) -/

/-- One provider's entry in the worker's `results` array. -/
structure ProviderResult where
  provider : String
  success : Bool
  reason : Option String
  deriving DecidableEq, Repr

/-- OneSignal configuration from env (`getOneSignalConfig`); `none` models an
unset env var, which JS treats as falsy. -/
structure OneSignalConfig where
  appId : Option String
  restApiKey : Option String
  deriving DecidableEq, Repr

/-- FCM configuration from env (`getFcmConfig`). -/
structure FcmConfig where
  serverKey : Option String
  projectId : Option String
  deriving DecidableEq, Repr

/-- Behaviour of the external OneSignal `createNotification` call: it either
returns or raises. -/
inductive OsCall
  | succeeds
  | raises (msg : String)
  deriving DecidableEq, Repr

/-- Behaviour of the external `fetch` to the FCM endpoint: the fetch itself may
raise, or return a response that is either ok or a non-ok status with a body. -/
inductive FcmCall
  | ok
  | httpError (status : Nat) (text : String)
  | networkError (msg : String)
  deriving DecidableEq, Repr

/-- Shallow embedding of `sendViaOneSignal`: a missing `appId` or `restApiKey`
yields the non-fatal "Not configured" outcome without calling the gateway;
otherwise the gateway call's raise propagates (`Except.error`). -/
def sendViaOneSignal (cfg : OneSignalConfig) (call : OsCall) :
    Except String ProviderResult :=
  if cfg.appId.isNone ∨ cfg.restApiKey.isNone then
    .ok { provider := "onesignal", success := false, reason := some "Not configured" }
  else
    match call with
    | .succeeds => .ok { provider := "onesignal", success := true, reason := none }
    | .raises msg => .error msg

/-- Shallow embedding of `sendViaFcm`: a missing `serverKey` yields the
"Not configured" outcome; a raising fetch propagates; a non-ok response makes
the function itself throw `FCM send failed: status text`. -/
def sendViaFcm (cfg : FcmConfig) (call : FcmCall) : Except String ProviderResult :=
  if cfg.serverKey.isNone then
    .ok { provider := "fcm", success := false, reason := some "Not configured" }
  else
    match call with
    | .ok => .ok { provider := "fcm", success := true, reason := none }
    | .httpError status text =>
        .error ("FCM send failed: " ++ toString status ++ " " ++ text)
    | .networkError msg => .error msg

/-- Value returned by the worker handler when the job completes. -/
structure JobResult where
  status : String
  results : List ProviderResult
  deriving DecidableEq, Repr

/-- Shallow embedding of the `notificationQueue.process` handler. Token lookup
runs first; with no active tokens the job completes with status "no-tokens".
Otherwise OneSignal is attempted with a catch that records a raise as a failed
entry and continues; FCM is attempted with a catch that records the raise and
then rethrows, failing the job (`Except.error`) so Bull retries it. -/
def processJob (store : List DeviceTokenRow) (data : NotificationJobData)
    (osCfg : OneSignalConfig) (osCall : OsCall)
    (fcmCfg : FcmConfig) (fcmCall : FcmCall) : Except String JobResult :=
  let tokens := getDeviceTokensForUsers store data.recipientUserIds
  let activeTokens := tokens.map (fun t => t.token)
  if activeTokens.length = 0 then
    .ok { status := "no-tokens", results := [] }
  else
    let osResults : List ProviderResult :=
      match sendViaOneSignal osCfg osCall with
      | .ok r => [r]
      | .error msg => [{ provider := "onesignal", success := false, reason := some msg }]
    match sendViaFcm fcmCfg fcmCall with
    | .ok r => .ok { status := "sent", results := osResults ++ [r] }
    | .error msg => .error msg

/-- Retry options the queue is created with (`defaultJobOptions`). -/
structure QueueRetryOptions where
  attempts : Nat
  backoffType : String
  backoffDelay : Nat
  deriving DecidableEq, Repr

/-- The `defaultJobOptions` of `notification-queue`: 3 attempts, exponential
backoff with a 5000 ms base delay. -/
def notificationQueueRetryOptions : QueueRetryOptions :=
  { attempts := 3, backoffType := "exponential", backoffDelay := 5000 }

/-! ## Job History (`listNotifications`) -/

/-- Bull job states relevant to the listing. -/
inductive JobState
  | waiting
  | active
  | completed
  | failed
  deriving DecidableEq, Repr

/-- A Bull job record as read by `listNotifications`: `finishedOn` is set when
the job reached a terminal state, whether completed or failed. -/
structure QueueJob where
  id : Nat
  data : NotificationJobData
  state : JobState
  failedReason : Option String
  timestamp : Nat
  finishedOn : Option Nat
  deriving DecidableEq, Repr

/-- Jobs in the states requested by the listing: `['completed', 'failed']`. -/
def eligibleJobs (queue : List QueueJob) : List QueueJob :=
  queue.filter (fun j =>
    decide (j.state = JobState.completed) || decide (j.state = JobState.failed))

/-- Shallow embedding of `notificationQueue.getJobs(['completed','failed'],
start, end, false)` over a newest-first job list: the completed/failed jobs in
the inclusive index range. -/
def getJobs (queue : List QueueJob) (start stop : Nat) : List QueueJob :=
  (((eligibleJobs queue).drop start).take (stop - start + 1))

/-- The `limit = query.limit || 50` computation: JS `||` takes 50 for an
absent limit and for an explicit 0, which is falsy. -/
def resolveLimit : Option Nat → Nat
  | some n => if n = 0 then 50 else n
  | none => 50

/-- Summary item built by `listNotifications` for one job. -/
structure JobSummary where
  id : Nat
  state : String
  failedReason : Option String
  title : String
  message : String
  recipientUserIds : List String
  initiatedBy : String
  timestamp : Nat
  finishedOn : Option Nat
  deriving DecidableEq, Repr

/-- The per-job mapping inside `listNotifications`: the reported `state` is
`'completed'` when `finishedOn` is set and `'failed'` otherwise. -/
def jobSummary (job : QueueJob) : JobSummary :=
  { id := job.id,
    state := if job.finishedOn.isSome then "completed" else "failed",
    failedReason := job.failedReason,
    title := job.data.title,
    message := job.data.message,
    recipientUserIds := job.data.recipientUserIds,
    initiatedBy := job.data.initiatedBy,
    timestamp := job.timestamp,
    finishedOn := job.finishedOn }

/-- Shallow embedding of `listNotifications`: `limit = query.limit || 50`
(JS falsy test, so an explicit 0 also falls back to 50), fetch the
completed/failed jobs in range `0 .. limit-1`, map to summaries, and return
them all for `SCHOOL_ADMIN` or filtered to the requester's own id otherwise. -/
def listNotifications (queue : List QueueJob) (requesterRole requesterUserId : String)
    (queryLimit : Option Nat) : List JobSummary :=
  let limit : Nat := resolveLimit queryLimit
  let jobs := getJobs queue 0 (limit - 1)
  let items := jobs.map jobSummary
  if requesterRole = "SCHOOL_ADMIN" then items
  else items.filter (fun item => item.recipientUserIds.contains requesterUserId)

/-! ## Lemmas about the Set model -/

theorem mem_setAdd {s : List String} {x y : String} :
    y ∈ setAdd s x ↔ y ∈ s ∨ y = x := by
  unfold setAdd
  split
  · rename_i hx
    constructor
    · exact Or.inl
    · rintro (h | rfl)
      · exact h
      · exact hx
  · simp [List.mem_append]

theorem nodup_setAdd {s : List String} (h : s.Nodup) (x : String) :
    (setAdd s x).Nodup := by
  unfold setAdd
  split
  · exact h
  · rename_i hx
    exact List.nodup_append.mpr ⟨h, List.nodup_singleton x, by simpa using hx⟩

theorem setAddAll_cons (s : List String) (a : String) (xs : List String) :
    setAddAll s (a :: xs) = setAddAll (setAdd s a) xs := rfl

theorem mem_setAddAll (xs : List String) : ∀ (s : List String) (y : String),
    y ∈ setAddAll s xs ↔ y ∈ s ∨ y ∈ xs := by
  induction xs with
  | nil => intro s y; simp [setAddAll]
  | cons a xs ih =>
    intro s y
    rw [setAddAll_cons, ih, mem_setAdd]
    simp [List.mem_cons, or_assoc]

theorem nodup_setAddAll (xs : List String) : ∀ (s : List String),
    s.Nodup → (setAddAll s xs).Nodup := by
  induction xs with
  | nil => intro s h; exact h
  | cons a xs ih =>
    intro s h
    rw [setAddAll_cons]
    exact ih _ (nodup_setAdd h a)

/-- The resolver's result is always duplicate-free. -/
theorem resolveRecipientUserIds_nodup (dir : Directory) (f : RecipientFilter) :
    (resolveRecipientUserIds dir f).Nodup := by
  unfold resolveRecipientUserIds
  split_ifs <;>
    solve_by_elim [nodup_setAddAll, List.nodup_nil]

/-- Membership in the resolver's result is the union of the three lookups,
each guarded by its JS truthiness test. -/
theorem mem_resolveRecipientUserIds (dir : Directory) (f : RecipientFilter) (x : String) :
    x ∈ resolveRecipientUserIds dir f ↔
      ((optNonEmpty f.userIds = true ∧ x ∈ lookupUsersByIds dir (f.userIds.getD [])) ∨
       (optNonEmpty f.roles = true ∧ x ∈ lookupUsersByRoles dir (f.roles.getD [])) ∨
       (optNonEmpty f.classIds = true ∧
         (x ∈ lookupTeachersByClasses dir (f.classIds.getD []) ∨
          x ∈ lookupParentsByClasses dir (f.classIds.getD [])))) := by
  unfold resolveRecipientUserIds
  split_ifs <;> simp_all [mem_setAddAll, or_assoc]

/-! ## C4: deduplication across filter paths -/

/-- C4: for every recipient filter the Recipient Resolver returns a
deduplicated set — a user reachable by two or more different filter paths
appears exactly once in the result. -/
theorem resolveRecipientUserIds_dedup (dir : Directory) (f : RecipientFilter) (x : String)
    (hx : x ∈ resolveRecipientUserIds dir f) :
    (resolveRecipientUserIds dir f).count x = 1 :=
  List.count_eq_one_of_mem (resolveRecipientUserIds_nodup dir f) hx

/-- Directory with one class having two staff and three enrolled members, two
of whom share guardian g1 (the spec's P3 scenario). -/
def dirSharedGuardian : Directory :=
  { users := [],
    teacherClasses := [⟨"c1", "t1"⟩, ⟨"c1", "t2"⟩],
    students := [⟨"c1", some "g1"⟩, ⟨"c1", some "g1"⟩, ⟨"c1", some "g2"⟩] }

/-- Filter listing only the class c1. -/
def filterClassOnly : RecipientFilter := ⟨none, none, some ["c1"]⟩

theorem resolveRecipientUserIds_dedup_witness :
    "g1" ∈ resolveRecipientUserIds dirSharedGuardian filterClassOnly ∧
    (resolveRecipientUserIds dirSharedGuardian filterClassOnly).count "g1" = 1 :=
  ⟨by decide,
   resolveRecipientUserIds_dedup dirSharedGuardian filterClassOnly "g1" (by decide)⟩

/-! ## C3: roles-only filters -/

/-- Directory with a single user holding role PARENT but deactivated. -/
def dirInactiveParent : Directory :=
  { users := [⟨"u1", "PARENT", false⟩], teacherClasses := [], students := [] }

/-- Roles-only filter listing PARENT. -/
def filterRolesParent : RecipientFilter := ⟨none, some ["PARENT"], none⟩

/-- C3 counterexample: the roles branch of the resolver has no `isActive`
condition, so the inactive user u1 is returned while the set of active PARENT
users is empty — the resolver does not return "exactly the set of active users
holding any of the listed roles". -/
theorem resolve_roles_includes_inactive :
    resolveRecipientUserIds dirInactiveParent filterRolesParent = ["u1"] ∧
    (dirInactiveParent.users.filter (fun u => u.isActive && u.roleName == "PARENT")).map
        (fun u => u.id) = [] := by decide

/-- C3 (amended): for a roles-only filter the resolver returns exactly the set
of users holding any of the listed roles, regardless of their `isActive` flag,
with no duplicates. -/
theorem resolve_roles_only (dir : Directory) (f : RecipientFilter) (rs : List String)
    (hu : optNonEmpty f.userIds = false) (hc : optNonEmpty f.classIds = false)
    (hr : f.roles = some rs) (hne : rs ≠ []) :
    (∀ x, x ∈ resolveRecipientUserIds dir f ↔
        ∃ u ∈ dir.users, u.id = x ∧ u.roleName ∈ rs) ∧
    (resolveRecipientUserIds dir f).Nodup := by
  refine ⟨fun x => ?_, resolveRecipientUserIds_nodup dir f⟩
  rw [mem_resolveRecipientUserIds]
  obtain ⟨a, rs', rfl⟩ := List.exists_cons_of_ne_nil hne
  have hsome : optNonEmpty (some (a :: rs')) = true := rfl
  simp [hu, hc, hr, hsome, lookupUsersByRoles, List.mem_filter, List.mem_map]
  aesop

/-- Directory mixing active and inactive PARENT users with a TEACHER. -/
def dirRolesMixed : Directory :=
  { users := [⟨"p1", "PARENT", true⟩, ⟨"p2", "PARENT", false⟩, ⟨"t1", "TEACHER", true⟩],
    teacherClasses := [], students := [] }

/-- Roles-only filter used by the C3 witness. -/
def filterRolesMixed : RecipientFilter := ⟨none, some ["PARENT"], none⟩

theorem resolve_roles_only_witness :
    (∀ x, x ∈ resolveRecipientUserIds dirRolesMixed filterRolesMixed ↔
        ∃ u ∈ dirRolesMixed.users, u.id = x ∧ u.roleName ∈ ["PARENT"]) ∧
    (resolveRecipientUserIds dirRolesMixed filterRolesMixed).Nodup :=
  resolve_roles_only dirRolesMixed filterRolesMixed ["PARENT"]
    (by decide) (by decide) rfl (by decide)

/-! ## C6: registration ownership -/

/-- C6: registering a device token whose body `userId` differs from the
authenticated requester fails with the conflict error and leaves the store
unchanged — the returned store is the input store and no upsert runs. -/
theorem registerDevice_ownership (store : List DeviceTokenRow) (input : RegisterDeviceInput)
    (requesterUserId : String) (now : Nat) (h : input.userId ≠ requesterUserId) :
    registerDevice store input requesterUserId now =
      (store, Except.error (ServiceError.conflict "User ID does not match authenticated user")) := by
  unfold registerDevice
  rw [if_pos h]

theorem registerDevice_ownership_witness :
    registerDevice [] ⟨"victim", "tok1", "IOS"⟩ "attacker" 7 =
      ([], Except.error (ServiceError.conflict "User ID does not match authenticated user")) :=
  registerDevice_ownership [] ⟨"victim", "tok1", "IOS"⟩ "attacker" 7 (by decide)

/-! ## C7: upsert semantics of registration -/

theorem matchesKey_newRow (input : RegisterDeviceInput) (now : Nat) :
    matchesKey (newRow input now) input.userId input.deviceToken = true := by
  simp [matchesKey, newRow]

theorem matchesKey_updateRow (input : RegisterDeviceInput) (now : Nat) (r : DeviceTokenRow) :
    matchesKey (updateRow input now r) input.userId input.deviceToken =
      matchesKey r input.userId input.deviceToken := by
  unfold updateRow
  split
  · rename_i h
    simp [matchesKey] at h ⊢
  · rfl

theorem upsert_fresh (store : List DeviceTokenRow) (input : RegisterDeviceInput) (now : Nat)
    (h : store.countP (fun r => matchesKey r input.userId input.deviceToken) = 0) :
    upsertDeviceToken store input now = store ++ [newRow input now] := by
  have h' : store.any (fun r => matchesKey r input.userId input.deviceToken) = false := by
    rw [List.any_eq_false]
    intro a ha
    simpa using List.countP_eq_zero.mp h a ha
  unfold upsertDeviceToken
  rw [h']
  simp

theorem countP_upsert_existing (store : List DeviceTokenRow) (input : RegisterDeviceInput)
    (now : Nat) :
    ((store.map (updateRow input now)).countP
        (fun r => matchesKey r input.userId input.deviceToken)) =
      store.countP (fun r => matchesKey r input.userId input.deviceToken) := by
  rw [List.countP_map]
  apply List.countP_congr
  intro r _
  simp [Function.comp, matchesKey_updateRow]

/-- C7: registration has upsert semantics keyed on `(userId, token)`. Starting
from a store with no row for the pair, the first call inserts exactly one
matching active row, the second call still leaves exactly one matching row,
and that row carries the second call's platform, `isActive = true` and a
`lastUsedAt` equal to the second call's clock — strictly later than the
first call's. -/
theorem registerDevice_upsert (store : List DeviceTokenRow) (u t p₁ p₂ : String)
    (now₁ now₂ : Nat)
    (hfresh : store.countP (fun r => matchesKey r u t) = 0) (hlt : now₁ < now₂) :
    ((registerDevice store ⟨u, t, p₁⟩ u now₁).1.countP (fun r => matchesKey r u t) = 1) ∧
    ((registerDevice (registerDevice store ⟨u, t, p₁⟩ u now₁).1 ⟨u, t, p₂⟩ u now₂).1.countP
        (fun r => matchesKey r u t) = 1) ∧
    (∀ r ∈ (registerDevice (registerDevice store ⟨u, t, p₁⟩ u now₁).1 ⟨u, t, p₂⟩ u now₂).1,
        matchesKey r u t = true →
          r.isActive = true ∧ r.platform = p₂ ∧ r.lastUsedAt = now₂ ∧ now₁ < r.lastUsedAt) := by
  have hs₁ : (registerDevice store ⟨u, t, p₁⟩ u now₁).1 =
      store ++ [newRow ⟨u, t, p₁⟩ now₁] := by
    unfold registerDevice
    rw [if_neg (by simp)]
    simpa using upsert_fresh store ⟨u, t, p₁⟩ now₁ hfresh
  have hcount₁ : (store ++ [newRow ⟨u, t, p₁⟩ now₁]).countP (fun r => matchesKey r u t) = 1 := by
    rw [List.countP_append, hfresh]
    simp [matchesKey, newRow]
  have hany : (store ++ [newRow ⟨u, t, p₁⟩ now₁]).any (fun r => matchesKey r u t) = true := by
    rw [List.any_eq_true]
    exact ⟨newRow ⟨u, t, p₁⟩ now₁, by simp, by simp [matchesKey, newRow]⟩
  have hs₂ : (registerDevice (registerDevice store ⟨u, t, p₁⟩ u now₁).1 ⟨u, t, p₂⟩ u now₂).1 =
      (store ++ [newRow ⟨u, t, p₁⟩ now₁]).map (updateRow ⟨u, t, p₂⟩ now₂) := by
    rw [hs₁]
    unfold registerDevice
    rw [if_neg (by simp)]
    have hup : upsertDeviceToken (store ++ [newRow ⟨u, t, p₁⟩ now₁]) ⟨u, t, p₂⟩ now₂ =
        (store ++ [newRow ⟨u, t, p₁⟩ now₁]).map (updateRow ⟨u, t, p₂⟩ now₂) := by
      unfold upsertDeviceToken
      rw [if_pos hany]
    simpa using hup
  refine ⟨?_, ?_, ?_⟩
  · rw [hs₁]
    exact hcount₁
  · rw [hs₂]
    rw [countP_upsert_existing (store ++ [newRow ⟨u, t, p₁⟩ now₁]) ⟨u, t, p₂⟩ now₂]
    exact hcount₁
  · intro r hr hk
    rw [hs₂] at hr
    obtain ⟨r', _, rfl⟩ := List.mem_map.mp hr
    have hk' : matchesKey r' u t = true := by
      rw [← matchesKey_updateRow ⟨u, t, p₂⟩ now₂ r']
      exact hk
    unfold updateRow
    rw [if_pos hk']
    exact ⟨rfl, rfl, rfl, hlt⟩

theorem registerDevice_upsert_witness :
    (((registerDevice [] ⟨"u1", "tokA", "IOS"⟩ "u1" 10).1.countP
        (fun r => matchesKey r "u1" "tokA")) = 1) ∧
    (((registerDevice (registerDevice [] ⟨"u1", "tokA", "IOS"⟩ "u1" 10).1
        ⟨"u1", "tokA", "ANDROID"⟩ "u1" 20).1.countP (fun r => matchesKey r "u1" "tokA")) = 1) ∧
    (∀ r ∈ (registerDevice (registerDevice [] ⟨"u1", "tokA", "IOS"⟩ "u1" 10).1
        ⟨"u1", "tokA", "ANDROID"⟩ "u1" 20).1,
        matchesKey r "u1" "tokA" = true →
          r.isActive = true ∧ r.platform = "ANDROID" ∧ r.lastUsedAt = 20 ∧ 10 < r.lastUsedAt) :=
  registerDevice_upsert [] "u1" "tokA" "IOS" "ANDROID" 10 20 (by decide) (by decide)

/-! ## C1 and C9: degraded-mode enqueue -/

theorem fallbackWarning_ne_empty (e : JsError) : fallbackWarning e ≠ "" := by
  intro h
  have hlen := congrArg String.length h
  unfold fallbackWarning at hlen
  simp only [String.length_append] at hlen
  have h26 : ("Notification queue error: ").length = 26 := rfl
  have h0 : ("" : String).length = 0 := rfl
  omega

/-- C1: when recipient resolution yields a non-empty set and the queue add
raises an error classified as a connectivity failure, `enqueueNotification`
returns `queued: false` with the resolved recipient count and a non-empty
warning instead of raising. -/
theorem enqueueNotification_connectivity_degraded (dir : Directory)
    (input : SendNotificationInput) (initiatedBy : String) (e : JsError)
    (hres : resolveRecipientUserIds dir input.recipients ≠ [])
    (hredis : isRedisError e = true) :
    enqueueNotification dir input initiatedBy (fun _ => some e) =
      Except.ok { queued := false,
                  recipientCount := (resolveRecipientUserIds dir input.recipients).length,
                  warning := some redisWarning } ∧
    redisWarning ≠ "" := by
  constructor
  · unfold enqueueNotification
    rw [if_neg (by simpa using hres)]
    simp [hredis]
  · decide

/-- Directory with one resolvable user, for the C1 witness. -/
def dirC1 : Directory :=
  { users := [⟨"u1", "PARENT", true⟩], teacherClasses := [], students := [] }

/-- Send request naming u1 explicitly, for the C1 witness. -/
def inputC1 : SendNotificationInput :=
  { title := "Meeting", message := "Tomorrow 5pm", recipients := ⟨some ["u1"], none, none⟩,
    data := none }

/-- Connectivity-shaped error: `code` is ECONNREFUSED. -/
def errRefused : JsError := { message := "", code := "ECONNREFUSED", name := "" }

theorem enqueueNotification_connectivity_degraded_witness :
    enqueueNotification dirC1 inputC1 "admin" (fun _ => some errRefused) =
      Except.ok { queued := false,
                  recipientCount := (resolveRecipientUserIds dirC1 inputC1.recipients).length,
                  warning := some redisWarning } ∧
    redisWarning ≠ "" :=
  enqueueNotification_connectivity_degraded dirC1 inputC1 "admin" errRefused
    (by decide) (by decide)

/-- C9: once resolution has produced a non-empty recipient set, every error
raised by the queue add — connectivity-classified or not — is downgraded to a
`queued: false` response carrying a non-empty warning, so the only
caller-visible error of the embedded send path is the not-found error raised
before the enqueue attempt. -/
theorem enqueueNotification_never_raises_after_resolution (dir : Directory)
    (input : SendNotificationInput) (initiatedBy : String) (e : JsError) :
    (resolveRecipientUserIds dir input.recipients ≠ [] →
       ∃ w, enqueueNotification dir input initiatedBy (fun _ => some e) =
           Except.ok { queued := false,
                       recipientCount := (resolveRecipientUserIds dir input.recipients).length,
                       warning := some w } ∧ w ≠ "") ∧
    (resolveRecipientUserIds dir input.recipients = [] →
       enqueueNotification dir input initiatedBy (fun _ => some e) =
         Except.error (ServiceError.notFound "No recipients found for the provided criteria")) := by
  constructor
  · intro hres
    unfold enqueueNotification
    rw [if_neg (by simpa using hres)]
    by_cases hr : isRedisError e = true
    · exact ⟨redisWarning, by simp [hr], by decide⟩
    · exact ⟨fallbackWarning e, by simp [hr], fallbackWarning_ne_empty e⟩
  · intro hres
    unfold enqueueNotification
    rw [if_pos (by simpa using hres)]

/-- Directory with one resolvable teacher, for the C9 witness. -/
def dirC9 : Directory :=
  { users := [⟨"t1", "TEACHER", true⟩], teacherClasses := [], students := [] }

/-- Send request naming t1 explicitly, for the C9 witness. -/
def inputC9 : SendNotificationInput :=
  { title := "Note", message := "Hello", recipients := ⟨some ["t1"], none, none⟩, data := none }

/-- An error the string-sniffing does not classify as connectivity. -/
def errOther : JsError := { message := "oops", code := "", name := "TypeError" }

theorem enqueueNotification_never_raises_witness :
    ∃ w, enqueueNotification dirC9 inputC9 "admin" (fun _ => some errOther) =
        Except.ok { queued := false,
                    recipientCount := (resolveRecipientUserIds dirC9 inputC9.recipients).length,
                    warning := some w } ∧ w ≠ "" :=
  (enqueueNotification_never_raises_after_resolution dirC9 inputC9 "admin" errOther).1
    (by decide)

/-! ## C2: failure granularity of the delivery worker -/

/-- Store with one active token for u1, used by the C2 counterexample. -/
def storeC2 : List DeviceTokenRow :=
  [{ userId := "u1", token := "tokU1", platform := "IOS", isActive := true, lastUsedAt := 0 }]

/-- Job payload addressed to u1, used by the C2 counterexample. -/
def dataC2 : NotificationJobData :=
  { title := "T", message := "M", data := none, recipientUserIds := ["u1"],
    initiatedBy := "admin" }

/-- OneSignal fully configured, used by the C2 counterexample. -/
def osCfgC2 : OneSignalConfig := { appId := some "app", restApiKey := some "key" }

/-- FCM unconfigured, used by the C2 counterexample. -/
def fcmCfgC2 : FcmConfig := { serverKey := none, projectId := none }

/-- C2 counterexample: the OneSignal provider call raises (a real raise, since
the adapter is configured), yet the job completes with status "sent" — the
handler's catch for OneSignal records the failure and does not rethrow, so a
raising provider does not always mark the job failed. Only the FCM catch
rethrows. -/
theorem processJob_onesignal_raise_completes :
    processJob storeC2 dataC2 osCfgC2 (OsCall.raises "network down") fcmCfgC2 FcmCall.ok =
      Except.ok { status := "sent",
                  results := [{ provider := "onesignal", success := false,
                                reason := some "network down" },
                              { provider := "fcm", success := false,
                                reason := some "Not configured" }] } := rfl

/-- C2 (amended): with at least one active token, only a raise from the FCM
provider call fails the job as a whole (the rethrow that makes it eligible for
the queue's retry policy); a raise from the OneSignal provider call is caught
and recorded as a failed outcome in the result list of a job that still
completes when FCM does not raise, with FCM's outcome recorded beside it. -/
theorem processJob_failure_granularity (store : List DeviceTokenRow)
    (data : NotificationJobData) (osCfg : OneSignalConfig) (osCall : OsCall)
    (fcmCfg : FcmConfig) (fcmCall : FcmCall)
    (htok : getDeviceTokensForUsers store data.recipientUserIds ≠ []) :
    (∀ m, sendViaFcm fcmCfg fcmCall = Except.error m →
        processJob store data osCfg osCall fcmCfg fcmCall = Except.error m) ∧
    (∀ m r, osCfg.appId.isSome → osCfg.restApiKey.isSome →
        sendViaFcm fcmCfg fcmCall = Except.ok r →
        processJob store data osCfg (OsCall.raises m) fcmCfg fcmCall =
          Except.ok { status := "sent",
                      results := [{ provider := "onesignal", success := false,
                                    reason := some m }, r] }) := by
  have hlen : ¬ ((getDeviceTokensForUsers store data.recipientUserIds).map
      (fun t => t.token)).length = 0 := by
    simpa using htok
  constructor
  · intro m hfcm
    unfold processJob
    rw [if_neg hlen, hfcm]
  · intro m r hApp hKey hfcm
    unfold processJob
    rw [if_neg hlen, hfcm]
    have hos : sendViaOneSignal osCfg (OsCall.raises m) = Except.error m := by
      unfold sendViaOneSignal
      rw [if_neg]
      simp [Option.isNone_iff_eq_none]
      constructor
      · intro h
        rw [h] at hApp
        simp at hApp
      · intro h
        rw [h] at hKey
        simp at hKey
    rw [hos]
    rfl

theorem processJob_failure_granularity_witness :
    processJob storeC2 dataC2 osCfgC2 (OsCall.raises "os down") fcmCfgC2 FcmCall.ok =
      Except.ok { status := "sent",
                  results := [{ provider := "onesignal", success := false,
                                reason := some "os down" },
                              { provider := "fcm", success := false,
                                reason := some "Not configured" }] } :=
  (processJob_failure_granularity storeC2 dataC2 osCfgC2 (OsCall.raises "os down")
      fcmCfgC2 FcmCall.ok (by decide)).2 "os down"
    { provider := "fcm", success := false, reason := some "Not configured" }
    (by decide) (by decide) rfl

/-! ## C8: no-tokens completion and the active-only read path -/

/-- C8: a job whose recipients have no active tokens completes successfully
with status "no-tokens" and an empty result list, whatever the provider
configuration or behaviour — no provider call is attempted; and the worker's
token lookup returns only rows that are active and belong to the requested
users, so an inactive token is never targeted. -/
theorem processJob_no_tokens_and_active_only (store : List DeviceTokenRow)
    (data : NotificationJobData) (osCfg : OneSignalConfig) (osCall : OsCall)
    (fcmCfg : FcmConfig) (fcmCall : FcmCall) :
    (getDeviceTokensForUsers store data.recipientUserIds = [] →
       processJob store data osCfg osCall fcmCfg fcmCall =
         Except.ok { status := "no-tokens", results := [] }) ∧
    (∀ r ∈ getDeviceTokensForUsers store data.recipientUserIds,
       r.isActive = true ∧ r.userId ∈ data.recipientUserIds) := by
  constructor
  · intro h
    unfold processJob
    rw [if_pos (by simp [h])]
  · intro r hr
    unfold getDeviceTokensForUsers at hr
    have := List.mem_filter.mp hr
    obtain ⟨-, hp⟩ := this
    simp only [Bool.and_eq_true] at hp
    refine ⟨hp.2, ?_⟩
    simpa using hp.1

/-- Store holding only an inactive token for u2, for the C8 witness. -/
def storeC8 : List DeviceTokenRow :=
  [{ userId := "u2", token := "tokU2", platform := "WEB", isActive := false, lastUsedAt := 3 }]

/-- Job payload addressed to u2, for the C8 witness. -/
def dataC8 : NotificationJobData :=
  { title := "T8", message := "M8", data := none, recipientUserIds := ["u2"],
    initiatedBy := "admin" }

theorem processJob_no_tokens_witness :
    processJob storeC8 dataC8 osCfgC2 OsCall.succeeds
        { serverKey := some "k", projectId := none } FcmCall.ok =
      Except.ok { status := "no-tokens", results := [] } :=
  (processJob_no_tokens_and_active_only storeC8 dataC8 osCfgC2 OsCall.succeeds
      { serverKey := some "k", projectId := none } FcmCall.ok).1 (by decide)

/-! ## C5: role-based history filtering -/

/-- C5: a SCHOOL_ADMIN caller receives the summaries of all completed/failed
jobs up to the limit; any other caller receives exactly those of them whose
resolved `recipientUserIds` include the caller's own id. -/
theorem listNotifications_role_filter (queue : List QueueJob) (role uid : String)
    (q : Option Nat) :
    (role = "SCHOOL_ADMIN" →
       listNotifications queue role uid q =
         ((eligibleJobs queue).take (resolveLimit q)).map jobSummary) ∧
    (role ≠ "SCHOOL_ADMIN" →
       ∀ s, s ∈ listNotifications queue role uid q ↔
         (s ∈ ((eligibleJobs queue).take (resolveLimit q)).map jobSummary ∧
          uid ∈ s.recipientUserIds)) := by
  have hlim : 1 ≤ resolveLimit q := by
    cases q with
    | none => simp [resolveLimit]
    | some n =>
      by_cases h : n = 0
      · simp [resolveLimit, h]
      · simp only [resolveLimit, if_neg h]
        omega
  have hjobs : getJobs queue 0 (resolveLimit q - 1) =
      (eligibleJobs queue).take (resolveLimit q) := by
    unfold getJobs
    rw [List.drop_zero]
    congr 1
    omega
  constructor
  · intro hrole
    simp only [listNotifications, hjobs, hrole, if_pos]
  · intro hrole s
    simp only [listNotifications, hjobs]
    rw [if_neg hrole]
    simp [List.mem_filter]

/-- Job addressed to u1, completed, for the C5 witness. -/
def jobToU1 : QueueJob :=
  { id := 1,
    data := { title := "A", message := "a", data := none, recipientUserIds := ["u1"],
              initiatedBy := "admin" },
    state := JobState.completed, failedReason := none, timestamp := 100,
    finishedOn := some 110 }

/-- Job addressed to u7 only, completed, for the C5 witness. -/
def jobToU7 : QueueJob :=
  { id := 2,
    data := { title := "B", message := "b", data := none, recipientUserIds := ["u7"],
              initiatedBy := "admin" },
    state := JobState.completed, failedReason := none, timestamp := 90,
    finishedOn := some 95 }

/-- The two-job history used by the C5 witness. -/
def queueC5 : List QueueJob := [jobToU1, jobToU7]

theorem listNotifications_role_filter_witness :
    (listNotifications queueC5 "SCHOOL_ADMIN" "u9" none =
       ((eligibleJobs queueC5).take (resolveLimit none)).map jobSummary) ∧
    (jobSummary jobToU1 ∈ listNotifications queueC5 "TEACHER" "u1" none ↔
       (jobSummary jobToU1 ∈ ((eligibleJobs queueC5).take (resolveLimit none)).map jobSummary ∧
        "u1" ∈ (jobSummary jobToU1).recipientUserIds)) :=
  ⟨(listNotifications_role_filter queueC5 "SCHOOL_ADMIN" "u9" none).1 rfl,
   ((listNotifications_role_filter queueC5 "TEACHER" "u1" none).2 (by decide))
     (jobSummary jobToU1)⟩

/-! ## C10: reported state is derived from finishedOn alone -/

/-- C10: every summary's reported state is a function of the job's
`finishedOn` field alone — two jobs with equal `finishedOn` are reported with
the same state whatever their actual states, a job that terminated failed but
carries a finish timestamp is reported "completed", and every summary
returned by `listNotifications` says "completed" exactly when its
`finishedOn` is set. -/
theorem listNotifications_state_from_finishedOn :
    (∀ j₁ j₂ : QueueJob, j₁.finishedOn = j₂.finishedOn →
        (jobSummary j₁).state = (jobSummary j₂).state) ∧
    (∀ job : QueueJob, job.state = JobState.failed → job.finishedOn.isSome = true →
        (jobSummary job).state = "completed") ∧
    (∀ (queue : List QueueJob) (role uid : String) (q : Option Nat) (s : JobSummary),
        s ∈ listNotifications queue role uid q →
        (s.state = "completed" ↔ s.finishedOn.isSome = true)) := by
  refine ⟨?_, ?_, ?_⟩
  · intro j₁ j₂ h
    simp [jobSummary, h]
  · intro job _ hf
    simp [jobSummary, hf]
  · intro queue role uid q s hs
    have hmem : s ∈ (getJobs queue 0 (resolveLimit q - 1)).map jobSummary := by
      simp only [listNotifications] at hs
      split at hs
      · exact hs
      · exact (List.mem_filter.mp hs).1
    obtain ⟨job, -, rfl⟩ := List.mem_map.mp hmem
    cases hjf : job.finishedOn with
    | none => simp [jobSummary, hjf]
    | some t => simp [jobSummary, hjf]

/-- Job that terminated failed yet carries a finish timestamp, for the C10
witness. -/
def jobFailedWithFinish : QueueJob :=
  { id := 3,
    data := { title := "C", message := "c", data := none, recipientUserIds := ["u1"],
              initiatedBy := "admin" },
    state := JobState.failed, failedReason := some "provider raised",
    timestamp := 50, finishedOn := some 60 }

theorem listNotifications_state_witness :
    (jobSummary jobFailedWithFinish).state = "completed" :=
  listNotifications_state_from_finishedOn.2.1 jobFailedWithFinish rfl rfl

end SchoolMgmt
